import Mathlib

/-!
Verification of the lunarvoiddash navigation and data-fetch core.

This file gives a shallow embedding of:
  * the zone-focus controller state machine (src/hooks/useZoneFocus.ts),
  * the TaskWidget row-cursor machine (src/components/widgets/TaskWidget.tsx
    together with the Dropdown component it controls),
  * the Auth.js token refresh logic (refreshAccessToken and the jwt callback),
  * the pagination drain loops and the calendar fan-out of src/lib/google.ts,
and proves the spec's testable properties about these definitions.
-/

/-! ## Zone focus controller (src/hooks/useZoneFocus.ts) -/

/-- Controller state of the useZoneFocus hook: the focused zone index
(-1 means no zone focused) and whether the focused zone is activated. -/
structure ZoneFocusState where
  focusedIndex : Int
  isActive : Bool
deriving DecidableEq, Repr

/-- Keys consumed by widget/zone keyboard navigation (NAV_KEYS in src/lib/keys.ts). -/
def NAV_KEYS : List String :=
  ["ArrowDown", "ArrowUp", "ArrowLeft", "ArrowRight", "Enter", "Escape", " ", "MediaPlayPause"]

/-- State transition of handleKeyDown inside useZoneFocus.  The first repo
variant begins with a NAV_KEYS membership guard; the other two variants have
no guard but an unrecognized key falls through every branch, so all three
variants compute the same state.  preventDefault is a DOM side effect with no
bearing on the controller state and is not modelled. -/
def handleKeyDown (zoneCount : Int) (s : ZoneFocusState) (key : String) : ZoneFocusState :=
  if ¬ (NAV_KEYS.contains key) then s
  else if s.isActive then
    if key == "Escape" then { s with isActive := false } else s
  else if key == "ArrowDown" || key == "ArrowRight" then
    { s with focusedIndex := if s.focusedIndex < zoneCount - 1 then s.focusedIndex + 1 else 0 }
  else if key == "ArrowUp" || key == "ArrowLeft" then
    { s with focusedIndex := if s.focusedIndex > 0 then s.focusedIndex - 1 else zoneCount - 1 }
  else if key == "Enter" ∧ 0 ≤ s.focusedIndex then { s with isActive := true }
  else if key == "Escape" ∧ 0 ≤ s.focusedIndex then { s with focusedIndex := -1 }
  else s

/-- Repeated presses of one key routed through the controller. -/
def iterKey (zoneCount : Int) (key : String) : Nat → ZoneFocusState → ZoneFocusState
  | 0, s => s
  | n + 1, s => iterKey zoneCount key n (handleKeyDown zoneCount s key)

/-- One ArrowDown/ArrowRight press while inactive advances the focus to
(focusedIndex + 1) mod zoneCount. -/
lemma handleKeyDown_next (zc f : Int) (hf1 : -1 ≤ f) (hf2 : f < zc)
    (key : String) (hkey : key = "ArrowDown" ∨ key = "ArrowRight") :
    handleKeyDown zc ⟨f, false⟩ key = ⟨(f + 1) % zc, false⟩ := by
  rcases hkey with h | h <;> subst h <;>
    · simp only [handleKeyDown, NAV_KEYS]
      norm_num
      split_ifs with h
      · exact (Int.emod_eq_of_lt (by omega) (by omega)).symm
      · have hz : f + 1 = zc := by omega
        rw [show (0 : Int) = zc % zc by rw [Int.emod_self], ← hz]

/-- Iterating ArrowDown/ArrowRight from an in-range focus follows addition
modulo zoneCount. -/
lemma iterKey_next (zc : Int) (key : String)
    (hkey : key = "ArrowDown" ∨ key = "ArrowRight") (hzc : 1 ≤ zc) :
    ∀ (n : Nat) (f : Int), 0 ≤ f → f < zc →
      iterKey zc key n ⟨f, false⟩ = ⟨(f + n) % zc, false⟩
  | 0, f, h0, h1 => by
    simp [iterKey, Int.emod_eq_of_lt h0 h1]
  | n + 1, f, h0, h1 => by
    rw [iterKey, handleKeyDown_next zc f (by omega) h1 key hkey,
      iterKey_next zc key hkey hzc n ((f + 1) % zc)
        (Int.emod_nonneg _ (by omega)) (Int.emod_lt_of_pos _ (by omega))]
    congr 1
    rw [Int.emod_add_emod]
    congr 1
    push_cast
    ring

/-- C3: for every zoneCount ≥ 1 and every inactive controller state with the
focus index in its documented range -1 ≤ focusedIndex < zoneCount, an
ArrowDown or ArrowRight press sets focusedIndex to
(focusedIndex + 1) mod zoneCount (wrapping from last to first), and any
sequence of n+1 such presses lands on (focusedIndex + 1 + n) mod zoneCount,
which always lies in [0, zoneCount-1]: the focus cycles and never leaves the
range after the first press. -/
theorem zoneFocus_next_wraparound (zc f : Int) (n : Nat)
    (hzc : 1 ≤ zc) (hf1 : -1 ≤ f) (hf2 : f < zc)
    (key : String) (hkey : key = "ArrowDown" ∨ key = "ArrowRight") :
    handleKeyDown zc ⟨f, false⟩ key = ⟨(f + 1) % zc, false⟩ ∧
    iterKey zc key (n + 1) ⟨f, false⟩ = ⟨(f + 1 + n) % zc, false⟩ ∧
    0 ≤ (f + 1 + (n : Int)) % zc ∧ (f + 1 + (n : Int)) % zc < zc := by
  refine ⟨handleKeyDown_next zc f hf1 hf2 key hkey, ?_,
    Int.emod_nonneg _ (by omega), Int.emod_lt_of_pos _ (by omega)⟩
  rw [iterKey, handleKeyDown_next zc f hf1 hf2 key hkey,
    iterKey_next zc key hkey hzc n ((f + 1) % zc)
      (Int.emod_nonneg _ (by omega)) (Int.emod_lt_of_pos _ (by omega))]
  congr 1
  rw [Int.emod_add_emod]

/-- Concrete run of zoneFocus_next_wraparound: zoneCount = 3, starting
unfocused, five ArrowDown presses land on index 1. -/
theorem zoneFocus_next_wraparound_witness :
    handleKeyDown 3 ⟨-1, false⟩ "ArrowDown" = ⟨(-1 + 1) % 3, false⟩ ∧
    iterKey 3 "ArrowDown" (4 + 1) ⟨-1, false⟩ = ⟨(-1 + 1 + (4 : Nat)) % 3, false⟩ ∧
    0 ≤ (-1 + 1 + ((4 : Nat) : Int)) % 3 ∧ (-1 + 1 + ((4 : Nat) : Int)) % 3 < 3 :=
  zoneFocus_next_wraparound 3 (-1) 4 (by norm_num) (by norm_num) (by norm_num)
    "ArrowDown" (Or.inl rfl)

/-- C4 counterexample: with zoneCount = 3 and nothing focused
(focusedIndex = -1, inactive), ArrowUp sets focusedIndex to zoneCount - 1 = 2,
whereas the claimed formula (focusedIndex - 1 + zoneCount) mod zoneCount
gives 1. -/
theorem zoneFocus_prev_from_unfocused_cex :
    handleKeyDown 3 ⟨-1, false⟩ "ArrowUp" = ⟨2, false⟩ ∧
    ((-1 - 1 + 3) % 3 : Int) = 1 ∧
    handleKeyDown 3 ⟨-1, false⟩ "ArrowUp" ≠ ⟨((-1 - 1 + 3) % 3 : Int), false⟩ := by
  refine ⟨by decide, by decide, by decide⟩

/-- C4 amended: while inactive, ArrowUp/ArrowLeft sets focusedIndex to
(focusedIndex - 1 + zoneCount) mod zoneCount when a zone is focused
(focusedIndex ≥ 0), wrapping from first to last; from the unfocused state
(focusedIndex = -1) it jumps directly to the last zone, zoneCount - 1. -/
theorem zoneFocus_prev_press (zc f : Int)
    (hzc : 1 ≤ zc) (hf1 : -1 ≤ f) (hf2 : f < zc)
    (key : String) (hkey : key = "ArrowUp" ∨ key = "ArrowLeft") :
    handleKeyDown zc ⟨f, false⟩ key =
      ⟨if 0 ≤ f then (f - 1 + zc) % zc else zc - 1, false⟩ := by
  rcases hkey with h | h <;> subst h <;>
    · simp [handleKeyDown, NAV_KEYS]
      split_ifs with h1 h2 h2
      · exact (Int.emod_eq_of_lt (by omega) (by omega)).symm
      · omega
      · have hz : f = 0 := by omega
        subst hz
        have h4 : ((0 : Int) - 1) % zc = (zc - 1) % zc := by
          conv_lhs => rw [show (0 : Int) - 1 = zc - 1 + zc * (-1) by ring]
          rw [Int.add_mul_emod_self_left]
        rw [h4, Int.emod_eq_of_lt (by omega) (by omega)]
      · rfl

/-- Concrete run of zoneFocus_prev_press: zoneCount = 3, focus on zone 0,
ArrowUp wraps to zone 2. -/
theorem zoneFocus_prev_press_witness :
    handleKeyDown 3 ⟨0, false⟩ "ArrowUp" =
      ⟨if (0 : Int) ≤ 0 then (0 - 1 + 3) % 3 else 3 - 1, false⟩ :=
  zoneFocus_prev_press 3 0 (by norm_num) (by norm_num) (by norm_num)
    "ArrowUp" (Or.inl rfl)

/-- C5: Escape pressed while a zone is active deactivates it but keeps the
focus index; a second Escape from the resulting inactive, focused state
clears the focus to -1. -/
theorem zoneFocus_escape_two_step (zc f : Int) (hf : 0 ≤ f) :
    handleKeyDown zc ⟨f, true⟩ "Escape" = ⟨f, false⟩ ∧
    handleKeyDown zc (handleKeyDown zc ⟨f, true⟩ "Escape") "Escape" = ⟨-1, false⟩ := by
  constructor
  · simp [handleKeyDown, NAV_KEYS]
  · simp [handleKeyDown, NAV_KEYS, hf]

/-- Concrete run of zoneFocus_escape_two_step at zoneCount = 3, focus 2. -/
theorem zoneFocus_escape_two_step_witness :
    handleKeyDown 3 ⟨2, true⟩ "Escape" = ⟨2, false⟩ ∧
    handleKeyDown 3 (handleKeyDown 3 ⟨2, true⟩ "Escape") "Escape" = ⟨-1, false⟩ :=
  zoneFocus_escape_two_step 3 2 (by norm_num)

/-- C6: the controller is a total function and every no-transition case is a
silent no-op: an unrecognized key never changes the state; while active, any
recognized key other than Escape leaves the state unchanged (it is passed
through to the zone); while inactive with no zone focused, Enter and Escape
change nothing; while inactive, the recognized keys Space and MediaPlayPause
change nothing. -/
theorem zoneFocus_noop_cases (zc : Int) (s : ZoneFocusState) (key : String) :
    (key ∉ NAV_KEYS → handleKeyDown zc s key = s) ∧
    (s.isActive = true → key ≠ "Escape" → handleKeyDown zc s key = s) ∧
    (s.isActive = false → s.focusedIndex < 0 → key = "Enter" ∨ key = "Escape" →
      handleKeyDown zc s key = s) ∧
    (s.isActive = false → key = " " ∨ key = "MediaPlayPause" →
      handleKeyDown zc s key = s) := by
  refine ⟨fun h => by simp [handleKeyDown, h], fun ha hk => ?_, fun ha hf hk => ?_,
    fun ha hk => ?_⟩
  · simp [handleKeyDown, ha, hk]
  · rcases hk with h | h <;> subst h <;>
      simp [handleKeyDown, NAV_KEYS, ha, show ¬ (0 ≤ s.focusedIndex) by omega]
  · rcases hk with h | h <;> subst h <;> simp [handleKeyDown, NAV_KEYS, ha]

/-- Concrete no-op runs: an unrecognized key, Enter while unfocused, Escape
while unfocused and inactive, and Space while inactive all leave the state
⟨-1, false⟩ untouched (zoneCount = 3). -/
theorem zoneFocus_noop_cases_witness :
    handleKeyDown 3 ⟨-1, false⟩ "q" = ⟨-1, false⟩ ∧
    handleKeyDown 3 ⟨-1, false⟩ "Enter" = ⟨-1, false⟩ ∧
    handleKeyDown 3 ⟨-1, false⟩ "Escape" = ⟨-1, false⟩ ∧
    handleKeyDown 3 ⟨-1, false⟩ " " = ⟨-1, false⟩ :=
  ⟨(zoneFocus_noop_cases 3 ⟨-1, false⟩ "q").1 (by decide),
   (zoneFocus_noop_cases 3 ⟨-1, false⟩ "Enter").2.2.1 rfl (by decide) (Or.inl rfl),
   (zoneFocus_noop_cases 3 ⟨-1, false⟩ "Escape").2.2.1 rfl (by decide) (Or.inr rfl),
   (zoneFocus_noop_cases 3 ⟨-1, false⟩ " ").2.2.2 rfl (Or.inl rfl)⟩

/-! ## TaskWidget row cursor
(src/components/widgets/TaskWidget.tsx, with the Dropdown component it
drives: toggleMenu flips the menu, closeMenu closes it, selectAtIndex
commits a selection and closes it). -/

/-- Navigation state of one TaskWidget instance: the linear row cursor, the
submenu open flag, the activation flag, and the lengths of the two lists the
cursor ranges over (dropdownItems.length and tasks.length). -/
structure TaskWidgetState where
  cursorIndex : Int
  menuOpen : Bool
  isActive : Bool
  dropdownLen : Nat
  tasksLen : Nat
deriving DecidableEq, Repr

/-- Header segment length: the widget always renders exactly one header row. -/
def headerCount : Int := 1

/-- The listCount constant of TaskWidget: submenu rows count only while the
menu is open. -/
def listCount (s : TaskWidgetState) : Int := if s.menuOpen then s.dropdownLen else 0

/-- The totalCount constant of TaskWidget: header + submenu rows + task rows. -/
def totalCount (s : TaskWidgetState) : Int := headerCount + listCount s + s.tasksLen

/-- The header row always counts, so totalCount is never 0. -/
lemma totalCount_pos (s : TaskWidgetState) : 1 ≤ totalCount s := by
  unfold totalCount listCount headerCount
  split <;> omega

/-- State transition of the keydown handler installed by TaskWidget while its
zone is active (the handler is only attached when isActive).  Enter on the
header toggles the dropdown menu; Enter on a submenu row selects it, which
closes the menu, and the widget resets the cursor to 0; Enter on a content
row fires onSelectLink and ArrowLeft fires toggleComplete, neither of which
touches the navigation state. -/
def widgetKeyDown (s : TaskWidgetState) (key : String) : TaskWidgetState :=
  if ¬ s.isActive then s
  else if ¬ (NAV_KEYS.contains key) then s
  else if key == "ArrowDown" then
    { s with cursorIndex := min (s.cursorIndex + 1) (totalCount s - 1) }
  else if key == "ArrowUp" then
    { s with cursorIndex := max (s.cursorIndex - 1) 0 }
  else if key == "Escape" ∧ s.menuOpen then
    { s with menuOpen := false, cursorIndex := 0 }
  else if key == "Enter" || key == "ArrowRight" then
    if s.cursorIndex == 0 then { s with menuOpen := !s.menuOpen }
    else if s.menuOpen ∧ headerCount ≤ s.cursorIndex ∧
        s.cursorIndex < headerCount + listCount s then
      { s with menuOpen := false, cursorIndex := 0 }
    else s
  else s

/-- Activation effect of TaskWidget: on the not-active to active transition
the cursor is reset to 0 when totalCount > 0 and to -1 otherwise. -/
def widgetActivate (s : TaskWidgetState) : TaskWidgetState :=
  if s.isActive then s
  else { s with isActive := true, cursorIndex := if 0 < totalCount s then 0 else -1 }

/-- Deactivation effect of TaskWidget: the cursor resets to -1 and the
dropdown menu is force-closed. -/
def widgetDeactivate (s : TaskWidgetState) : TaskWidgetState :=
  if ¬ s.isActive then s
  else { s with isActive := false, cursorIndex := -1, menuOpen := false }

/-- Operations that can hit a TaskWidget instance: a keydown while active,
the zone activation/deactivation transitions, and the two query results
changing a list length (tasks refetch every 5 minutes; task lists load when
the menu opens). -/
inductive WidgetOp where
  | key (k : String)
  | activate
  | deactivate
  | setTasks (n : Nat)
  | setDropdown (n : Nat)
deriving DecidableEq, Repr

/-- Marks the operations that go through the widget code itself, as opposed
to an external list-length change delivered by a query. -/
def NavOp : WidgetOp → Bool
  | WidgetOp.setTasks _ => false
  | WidgetOp.setDropdown _ => false
  | _ => true

/-- One operation applied to the widget state. -/
def taskStep (s : TaskWidgetState) : WidgetOp → TaskWidgetState
  | WidgetOp.key k => widgetKeyDown s k
  | WidgetOp.activate => widgetActivate s
  | WidgetOp.deactivate => widgetDeactivate s
  | WidgetOp.setTasks n => { s with tasksLen := n }
  | WidgetOp.setDropdown n => { s with dropdownLen := n }

/-- A sequence of operations applied left to right. -/
def taskRun (s : TaskWidgetState) : List WidgetOp → TaskWidgetState
  | [] => s
  | op :: ops => taskRun (taskStep s op) ops

/-- Mount state of TaskWidget: cursor -1, menu closed, inactive, with the
given initial list lengths. -/
def initialTaskWidgetState (dd tl : Nat) : TaskWidgetState :=
  ⟨-1, false, false, dd, tl⟩

/-- The row-cursor invariant exactly as the claim states it: the cursor is in
range, or it is -1 exactly when the row list is empty. -/
def cursorClaimInv (s : TaskWidgetState) : Prop :=
  (0 ≤ s.cursorIndex ∧ s.cursorIndex < totalCount s) ∨
  (s.cursorIndex = -1 ∧ totalCount s = 0)

instance (s : TaskWidgetState) : Decidable (cursorClaimInv s) := by
  unfold cursorClaimInv
  infer_instance

/-- The invariant the code actually maintains: in range while active, -1
while inactive. -/
def cursorInv (s : TaskWidgetState) : Prop :=
  if s.isActive then 0 ≤ s.cursorIndex ∧ s.cursorIndex < totalCount s
  else s.cursorIndex = -1

/-- Every keydown preserves the cursor invariant. -/
lemma widgetKeyDown_preserves (s : TaskWidgetState) (k : String) (h : cursorInv s) :
    cursorInv (widgetKeyDown s k) := by
  obtain ⟨c, m, a, d, t⟩ := s
  cases a
  · unfold widgetKeyDown
    rw [if_pos (by simp)]
    exact h
  · simp only [cursorInv, totalCount, listCount, headerCount, if_true] at h
    unfold widgetKeyDown
    rw [if_neg (by simp)]
    split_ifs with h2 h3 h4 h5 h6 h7 h8 <;>
      · simp only [cursorInv, totalCount, listCount, headerCount, Bool.not_true,
          Bool.not_false, if_true]
        try have h7x : c = 0 := by simpa using h7
        split_ifs at h ⊢ <;> omega

/-- Activation preserves the cursor invariant. -/
lemma widgetActivate_preserves (s : TaskWidgetState) (h : cursorInv s) :
    cursorInv (widgetActivate s) := by
  obtain ⟨c, m, a, d, t⟩ := s
  cases a
  · have htot := totalCount_pos ⟨c, m, false, d, t⟩
    simp only [totalCount, listCount, headerCount] at htot
    unfold widgetActivate
    rw [if_neg (by simp)]
    simp only [cursorInv, totalCount, listCount, headerCount, if_true]
    split_ifs at htot ⊢ <;> omega
  · unfold widgetActivate
    rw [if_pos (by simp)]
    exact h

/-- Deactivation preserves the cursor invariant. -/
lemma widgetDeactivate_preserves (s : TaskWidgetState) (h : cursorInv s) :
    cursorInv (widgetDeactivate s) := by
  obtain ⟨c, m, a, d, t⟩ := s
  cases a
  · unfold widgetDeactivate
    rw [if_pos (by simp)]
    exact h
  · unfold widgetDeactivate
    rw [if_neg (by simp)]
    simp [cursorInv]

/-- Every widget-internal operation preserves the cursor invariant. -/
lemma taskStep_preserves (s : TaskWidgetState) (op : WidgetOp)
    (hop : NavOp op = true) (h : cursorInv s) : cursorInv (taskStep s op) := by
  cases op with
  | key k => exact widgetKeyDown_preserves s k h
  | activate => exact widgetActivate_preserves s h
  | deactivate => exact widgetDeactivate_preserves s h
  | setTasks n => simp [NavOp] at hop
  | setDropdown n => simp [NavOp] at hop

/-- Sequences of widget-internal operations preserve the cursor invariant. -/
lemma taskRun_preserves : ∀ (ops : List WidgetOp) (s : TaskWidgetState),
    (∀ op ∈ ops, NavOp op = true) → cursorInv s → cursorInv (taskRun s ops)
  | [], _, _, h => h
  | op :: ops, s, hall, h =>
    taskRun_preserves ops (taskStep s op)
      (fun o ho => hall o (List.mem_cons_of_mem _ ho))
      (taskStep_preserves s op (hall op (List.mem_cons_self _ _)) h)

/-- C2 counterexample: the claimed invariant (cursor in range, or -1 exactly
when the row list is empty) fails on reachable states.  After activate then
deactivate, the cursor is -1 while totalCount = 3 (the header always counts,
so totalCount is never 0).  And after activating, arrowing to the last task
row and then having the tasks query shrink to 0 items, the cursor stays 2
while totalCount = 1: no clamping happens on a list-length change. -/
theorem taskWidget_cursor_range_cex :
    ¬ cursorClaimInv (taskRun (initialTaskWidgetState 0 2)
      [WidgetOp.activate, WidgetOp.deactivate]) ∧
    (taskRun (initialTaskWidgetState 0 2)
      [WidgetOp.activate, WidgetOp.deactivate]).cursorIndex = -1 ∧
    totalCount (taskRun (initialTaskWidgetState 0 2)
      [WidgetOp.activate, WidgetOp.deactivate]) = 3 ∧
    ¬ cursorClaimInv (taskRun (initialTaskWidgetState 0 2)
      [WidgetOp.activate, WidgetOp.key "ArrowDown", WidgetOp.key "ArrowDown",
        WidgetOp.setTasks 0]) ∧
    (taskRun (initialTaskWidgetState 0 2)
      [WidgetOp.activate, WidgetOp.key "ArrowDown", WidgetOp.key "ArrowDown",
        WidgetOp.setTasks 0]).cursorIndex = 2 ∧
    totalCount (taskRun (initialTaskWidgetState 0 2)
      [WidgetOp.activate, WidgetOp.key "ArrowDown", WidgetOp.key "ArrowDown",
        WidgetOp.setTasks 0]) = 1 := by
  decide

/-- C2 amended: totalCount is always at least 1 (the header row always
counts, so it is never 0 and the cursor is never -1 because of emptiness).
After any sequence of widget operations that go through the widget's own
code (key presses while active, zone activation and deactivation — list
lengths then change only via menu open/close), the state satisfies: cursor
in [0, totalCount) while active, and cursor = -1 while inactive.  External
list-length changes are not clamped and can push the cursor out of range, as
the counterexample shows. -/
theorem taskWidget_cursor_invariant (dd tl : Nat) (ops : List WidgetOp)
    (hops : ∀ op ∈ ops, NavOp op = true) :
    cursorInv (taskRun (initialTaskWidgetState dd tl) ops) ∧
    1 ≤ totalCount (taskRun (initialTaskWidgetState dd tl) ops) :=
  ⟨taskRun_preserves ops (initialTaskWidgetState dd tl) hops (by simp [cursorInv, initialTaskWidgetState]),
   totalCount_pos _⟩

/-- Concrete run of taskWidget_cursor_invariant: activate, open the menu,
arrow into it, select, arrow down, deactivate. -/
theorem taskWidget_cursor_invariant_witness :
    cursorInv (taskRun (initialTaskWidgetState 2 3)
      [WidgetOp.activate, WidgetOp.key "Enter", WidgetOp.key "ArrowDown",
        WidgetOp.key "Enter", WidgetOp.key "ArrowDown", WidgetOp.deactivate]) ∧
    1 ≤ totalCount (taskRun (initialTaskWidgetState 2 3)
      [WidgetOp.activate, WidgetOp.key "Enter", WidgetOp.key "ArrowDown",
        WidgetOp.key "Enter", WidgetOp.key "ArrowDown", WidgetOp.deactivate]) :=
  taskWidget_cursor_invariant 2 3
    [WidgetOp.activate, WidgetOp.key "Enter", WidgetOp.key "ArrowDown",
      WidgetOp.key "Enter", WidgetOp.key "ArrowDown", WidgetOp.deactivate]
    (by decide)

/-! ## Session token refresh (refreshAccessToken and the jwt callback of the
Auth.js config) -/

/-- The Auth.js JWT record: access token, server-side refresh token, expiry
in milliseconds since the epoch, and the optional error marker. -/
structure JWT where
  accessToken : String
  refreshToken : String
  accessTokenExpires : Int
  error : Option String
deriving DecidableEq, Repr

/-- Parsed JSON body of the token-refresh response. -/
structure RefreshData where
  access_token : Option String
  expires_in : Option Int
  refresh_token : Option String
  error : Option String
deriving DecidableEq, Repr

/-- JavaScript truthiness of an optional string field: absent and the empty
string are falsy. -/
def truthyStr (o : Option String) : Bool := o.getD "" != ""

/-- Outcome of refreshAccessToken, with the transport outcome passed in: ok
is response.ok and data the parsed body.  The source reads data.access_token!
(a TypeScript non-null assertion); an absent access_token on the success path
is modelled as the empty string. -/
def refreshAccessToken (now : Int) (token : JWT) (ok : Bool) (data : RefreshData) : JWT :=
  if !ok || truthyStr data.error then
    { token with error := some "RefreshTokenError" }
  else
    { token with
      accessToken := data.access_token.getD "",
      refreshToken := data.refresh_token.getD token.refreshToken,
      accessTokenExpires := now + (data.expires_in.getD 3600) * 1000,
      error := none }

/-- The account object present on the jwt callback only at first sign-in.
expires_at is in seconds; the source tests it with JavaScript truthiness, so
an expires_at of 0 falls back to now + 3600s. -/
structure Account where
  access_token : String
  refresh_token : String
  expires_at : Option Int
deriving DecidableEq, Repr

/-- The jwt callback of the Auth.js config: on first sign-in (account
present) it stores the raw Google tokens; on every later session read it
returns the token as-is while more than 60 seconds from expiry and otherwise
refreshes it.  The returned Bool records whether refreshAccessToken (and so a
refresh HTTP call) ran. -/
def jwtCallback (now : Int) (account : Option Account) (token : JWT)
    (ok : Bool) (data : RefreshData) : JWT × Bool :=
  match account with
  | some a =>
    ({ token with
        accessToken := a.access_token,
        refreshToken := a.refresh_token,
        accessTokenExpires :=
          if a.expires_at.getD 0 != 0 then a.expires_at.getD 0 * 1000
          else now + 3600 * 1000 }, false)
  | none =>
    if now < token.accessTokenExpires - 60000 then (token, false)
    else (refreshAccessToken now token ok data, true)

/-- Refresh HTTP calls made by n concurrent session reads of the same cookie
token.  The jwt callback keeps no shared in-flight-refresh state (there is no
module-level variable in the source), so concurrent invocations each run the
callback body independently; the total is the number of invocations whose
run reached refreshAccessToken. -/
def concurrentReadRefreshCalls (n : Nat) (now : Int) (token : JWT)
    (ok : Bool) (data : RefreshData) : Nat :=
  ((List.replicate n (jwtCallback now none token ok data)).filter
    (fun r => r.2)).length

/-- C1 counterexample: for a token 30 seconds from expiry (within the 60
second buffer), 5 concurrent session reads make 5 refresh calls, not exactly
one: the code has no in-flight-refresh sharing. -/
theorem jwt_refresh_stampede_cex :
    concurrentReadRefreshCalls 5 0 ⟨"at", "rt", 30000, none⟩ true
      ⟨some "at2", some 3600, none, none⟩ = 5 ∧
    (5 : Nat) ≠ 1 := by
  decide

/-- C1 amended: a session read more than 60 seconds before expiry makes no
refresh call and returns the token unchanged (n concurrent reads make 0
calls); a read within 60 seconds of expiry (or later) refreshes before
returning, and n concurrent reads each trigger their own refresh call — n
calls in total, with no shared in-flight refresh. -/
theorem jwt_refresh_gating (now : Int) (token : JWT) (ok : Bool)
    (data : RefreshData) (n : Nat) :
    (now < token.accessTokenExpires - 60000 →
      jwtCallback now none token ok data = (token, false) ∧
      concurrentReadRefreshCalls n now token ok data = 0) ∧
    (token.accessTokenExpires - 60000 ≤ now →
      jwtCallback now none token ok data = (refreshAccessToken now token ok data, true) ∧
      concurrentReadRefreshCalls n now token ok data = n) := by
  constructor
  · intro h
    have hc : jwtCallback now none token ok data = (token, false) := by
      simp [jwtCallback, h]
    refine ⟨hc, ?_⟩
    simp [concurrentReadRefreshCalls, hc, List.filter_replicate]
  · intro h
    have hc : jwtCallback now none token ok data =
        (refreshAccessToken now token ok data, true) := by
      simp [jwtCallback, show ¬ now < token.accessTokenExpires - 60000 by omega]
    refine ⟨hc, ?_⟩
    simp [concurrentReadRefreshCalls, hc, List.filter_replicate]

/-- Concrete runs of jwt_refresh_gating: a token expiring in 120 seconds is
returned unchanged with no refresh call; for one expiring in 30 seconds, 5
concurrent reads make 5 refresh calls. -/
theorem jwt_refresh_gating_witness :
    jwtCallback 0 none ⟨"at", "rt", 120000, none⟩ true
      ⟨some "at2", some 3600, none, none⟩ = (⟨"at", "rt", 120000, none⟩, false) ∧
    concurrentReadRefreshCalls 5 0 ⟨"at", "rt", 30000, none⟩ true
      ⟨some "at2", some 3600, none, none⟩ = 5 :=
  ⟨((jwt_refresh_gating 0 ⟨"at", "rt", 120000, none⟩ true
      ⟨some "at2", some 3600, none, none⟩ 5).1 (by norm_num)).1,
   ((jwt_refresh_gating 0 ⟨"at", "rt", 30000, none⟩ true
      ⟨some "at2", some 3600, none, none⟩ 5).2 (by norm_num)).2⟩

/-- C9: when the refresh transport fails (non-OK response) or the body
carries an error marker, refreshAccessToken returns the token with only the
error marker set — accessToken, refreshToken and accessTokenExpires are
unchanged; on success the error marker is cleared, accessToken and
accessTokenExpires are replaced (expiry defaulting to one hour), and the old
refreshToken is kept exactly when the response carries none. -/
theorem refreshAccessToken_spec (now : Int) (token : JWT) (ok : Bool)
    (data : RefreshData) :
    ((!ok || truthyStr data.error) = true →
      refreshAccessToken now token ok data =
        { token with error := some "RefreshTokenError" }) ∧
    ((!ok || truthyStr data.error) = false →
      (refreshAccessToken now token ok data).error = none ∧
      (refreshAccessToken now token ok data).accessToken = data.access_token.getD "" ∧
      (refreshAccessToken now token ok data).accessTokenExpires =
        now + (data.expires_in.getD 3600) * 1000 ∧
      (refreshAccessToken now token ok data).refreshToken =
        data.refresh_token.getD token.refreshToken ∧
      (data.refresh_token = none →
        (refreshAccessToken now token ok data).refreshToken = token.refreshToken)) := by
  constructor
  · intro h
    simp [refreshAccessToken, h]
  · intro h
    simp only [refreshAccessToken, h, Bool.false_eq_true, if_false]
    refine ⟨by simp, by simp, by simp, by simp, ?_⟩
    intro hn
    simp [hn]

/-- Concrete runs of refreshAccessToken_spec: a 400 response leaves the token
intact apart from the error marker; a success response without a rotated
refresh token keeps the old one. -/
theorem refreshAccessToken_spec_witness :
    refreshAccessToken 0 ⟨"at", "rt", 30000, none⟩ false
      ⟨none, none, none, none⟩ =
      { (⟨"at", "rt", 30000, none⟩ : JWT) with error := some "RefreshTokenError" } ∧
    (refreshAccessToken 0 ⟨"at", "rt", 30000, none⟩ true
      ⟨some "at2", some 3600, none, none⟩).error = none ∧
    (refreshAccessToken 0 ⟨"at", "rt", 30000, none⟩ true
      ⟨some "at2", some 3600, none, none⟩).refreshToken = "rt" :=
  ⟨(refreshAccessToken_spec 0 ⟨"at", "rt", 30000, none⟩ false
      ⟨none, none, none, none⟩).1 (by decide),
   ((refreshAccessToken_spec 0 ⟨"at", "rt", 30000, none⟩ true
      ⟨some "at2", some 3600, none, none⟩).2 (by decide)).1,
   ((refreshAccessToken_spec 0 ⟨"at", "rt", 30000, none⟩ true
      ⟨some "at2", some 3600, none, none⟩).2 (by decide)).2.2.2.2 rfl⟩

/-! ## Pagination drain loops (src/lib/google.ts) -/

/-- One page of a paginated Google list response: the page's items and the
optional token naming the next page. -/
structure Page (α : Type) where
  items : List α
  nextPageToken : Option String
deriving DecidableEq, Repr

/-- The do-while drain loop shared by the paginated list fetches: request
with the current page token (none on the first request), accumulate the
page's items, and repeat with the response's nextPageToken while one is
present.  The upstream is the function api from a request's page token to
its response.  A fuel bound makes the loop total: a run that would issue
more requests than fuel returns none (the source loop would still be
running).  The result also carries the trace of page tokens requested, in
order. -/
def drainPages {α : Type} (api : Option String → Page α) :
    Nat → Option String → Option (List α × List (Option String))
  | 0, _ => none
  | fuel + 1, tok =>
    let page := api tok
    match page.nextPageToken with
    | none => some (page.items, [tok])
    | some t =>
      match drainPages api fuel (some t) with
      | none => none
      | some (items, toks) => some (page.items ++ items, tok :: toks)

/-- fetchYouTubePlaylists drains every playlists page into one list. -/
def fetchYouTubePlaylists {α : Type} (api : Option String → Page α) (fuel : Nat) :
    Option (List α) :=
  (drainPages api fuel none).map Prod.fst

/-- fetchPlaylistItems drains every playlist-items page into one list. -/
def fetchPlaylistItems {α : Type} (api : Option String → Page α) (fuel : Nat) :
    Option (List α) :=
  (drainPages api fuel none).map Prod.fst

/-- fetchDriveFolders drains every Drive folder page into one list. -/
def fetchDriveFolders {α : Type} (api : Option String → Page α) (fuel : Nat) :
    Option (List α) :=
  (drainPages api fuel none).map Prod.fst

/-- fetchDriveFolderImages drains every Drive image page into one list. -/
def fetchDriveFolderImages {α : Type} (api : Option String → Page α) (fuel : Nat) :
    Option (List α) :=
  (drainPages api fuel none).map Prod.fst

/-- A media item of the Photos Picker API: its id and its type tag, which is
PHOTO or VIDEO. -/
structure PickerMediaItem where
  id : String
  type : String
deriving DecidableEq, Repr

/-- The drain loop of fetchPickedMediaItems: identical to the shared loop
except that each page's items are filtered to type PHOTO before being
accumulated (videos are skipped). -/
def drainPickedPages (api : Option String → Page PickerMediaItem) :
    Nat → Option String → Option (List PickerMediaItem)
  | 0, _ => none
  | fuel + 1, tok =>
    let page := api tok
    let photos := page.items.filter (fun i => i.type == "PHOTO")
    match page.nextPageToken with
    | none => some photos
    | some t => (drainPickedPages api fuel (some t)).map (fun rest => photos ++ rest)

/-- fetchPickedMediaItems drains every picker page, keeping only photos. -/
def fetchPickedMediaItems (api : Option String → Page PickerMediaItem) (fuel : Nat) :
    Option (List PickerMediaItem) :=
  drainPickedPages api fuel none

/-- The upstream api serves, from request token tok onward, exactly the chain
of pages ps: each page is the response to the preceding token and every page
but the last carries the token of the next request; the last carries none. -/
inductive PageChain {α : Type} (api : Option String → Page α) :
    Option String → List (Page α) → Prop
  | last {tok : Option String} {p : Page α} :
      api tok = p → p.nextPageToken = none → PageChain api tok [p]
  | cons {tok : Option String} {p : Page α} {t : String} {ps : List (Page α)} :
      api tok = p → p.nextPageToken = some t → PageChain api (some t) ps →
      PageChain api tok (p :: ps)

/-- Draining a chain of pages issues one request per page — first with the
start token, then with each page's nextPageToken in order — and returns the
concatenation of the pages' items. -/
lemma drainPages_chain {α : Type} {api : Option String → Page α}
    {tok : Option String} {ps : List (Page α)} (hc : PageChain api tok ps) :
    drainPages api ps.length tok =
      some ((ps.map Page.items).flatten,
        tok :: (ps.filterMap Page.nextPageToken).map some) := by
  induction hc with
  | last ha hn => simp [drainPages, ha, hn]
  | cons ha ht _ ih => simp [drainPages, ha, ht, ih]

/-- Draining a chain of picker pages returns the concatenation of the pages'
photo items. -/
lemma drainPickedPages_chain {api : Option String → Page PickerMediaItem}
    {tok : Option String} {ps : List (Page PickerMediaItem)}
    (hc : PageChain api tok ps) :
    drainPickedPages api ps.length tok =
      some (((ps.map Page.items).flatten).filter (fun i => i.type == "PHOTO")) := by
  induction hc with
  | last ha hn => simp [drainPickedPages, ha, hn]
  | cons ha ht _ ih => simp [drainPickedPages, ha, ht, ih]

/-- A chain of n pages yields a request trace of exactly n tokens. -/
lemma pageChain_trace_length {α : Type} {api : Option String → Page α}
    {tok : Option String} {ps : List (Page α)} (hc : PageChain api tok ps) :
    (tok :: (ps.filterMap Page.nextPageToken).map some).length = ps.length := by
  induction hc with
  | last ha hn => simp [hn]
  | cons ha ht _ ih => simpa [ht] using ih

/-- C7 counterexample: fetchPickedMediaItems does not return the
concatenation of all pages' items — a single-page upstream whose one item is
a VIDEO yields the empty list, not that item. -/
theorem fetchPickedMediaItems_filters_cex :
    PageChain (fun _ => (⟨[⟨"v1", "VIDEO"⟩], none⟩ : Page PickerMediaItem))
      none [⟨[⟨"v1", "VIDEO"⟩], none⟩] ∧
    fetchPickedMediaItems (fun _ => ⟨[⟨"v1", "VIDEO"⟩], none⟩) 1 = some [] ∧
    fetchPickedMediaItems (fun _ => ⟨[⟨"v1", "VIDEO"⟩], none⟩) 1 ≠
      some [⟨"v1", "VIDEO"⟩] :=
  ⟨PageChain.last rfl rfl, by decide, by decide⟩

/-- C7 amended: for every upstream serving a token-linked chain of pages,
each of the five drain operations issues one request per page — the start
request without a token, then each page's nextPageToken exactly once, in
order — and stops at the page without a token.  fetchYouTubePlaylists,
fetchPlaylistItems, fetchDriveFolders and fetchDriveFolderImages return the
concatenation of all pages' items in original order; fetchPickedMediaItems
returns the concatenation of the pages' PHOTO items only, skipping videos.
When the page tokens are pairwise distinct the request trace holds no
duplicate token. -/
theorem pagination_drain_all {α : Type} (api : Option String → Page α)
    (apiP : Option String → Page PickerMediaItem)
    (ps : List (Page α)) (psP : List (Page PickerMediaItem))
    (hc : PageChain api none ps) (hcP : PageChain apiP none psP) :
    fetchYouTubePlaylists api ps.length = some ((ps.map Page.items).flatten) ∧
    fetchPlaylistItems api ps.length = some ((ps.map Page.items).flatten) ∧
    fetchDriveFolders api ps.length = some ((ps.map Page.items).flatten) ∧
    fetchDriveFolderImages api ps.length = some ((ps.map Page.items).flatten) ∧
    drainPages api ps.length none =
      some ((ps.map Page.items).flatten,
        none :: (ps.filterMap Page.nextPageToken).map some) ∧
    (none :: (ps.filterMap Page.nextPageToken).map some).length = ps.length ∧
    ((ps.filterMap Page.nextPageToken).Nodup →
      (none :: (ps.filterMap Page.nextPageToken).map some).Nodup) ∧
    fetchPickedMediaItems apiP psP.length =
      some (((psP.map Page.items).flatten).filter (fun i => i.type == "PHOTO")) := by
  refine ⟨?_, ?_, ?_, ?_, drainPages_chain hc, pageChain_trace_length hc, ?_, ?_⟩
  · simp [fetchYouTubePlaylists, drainPages_chain hc]
  · simp [fetchPlaylistItems, drainPages_chain hc]
  · simp [fetchDriveFolders, drainPages_chain hc]
  · simp [fetchDriveFolderImages, drainPages_chain hc]
  · intro hnd
    refine List.nodup_cons.mpr ⟨by simp, hnd.map (fun a b hab => Option.some_injective _ hab)⟩
  · exact drainPickedPages_chain hcP

/-- The 2/2/1 upstream of the spec's pagination test: three pages of 2, 2
and 1 items linked by tokens A and B. -/
def api221 : Option String → Page Nat := fun tok =>
  match tok with
  | none => ⟨[1, 2], some "A"⟩
  | some "A" => ⟨[3, 4], some "B"⟩
  | some "B" => ⟨[5], none⟩
  | some _ => ⟨[], none⟩

/-- The pages api221 serves. -/
def pages221 : List (Page Nat) :=
  [⟨[1, 2], some "A"⟩, ⟨[3, 4], some "B"⟩, ⟨[5], none⟩]

/-- A picker upstream with the same 2/2/1 shape, one item of which is a
video. -/
def apiP221 : Option String → Page PickerMediaItem := fun tok =>
  match tok with
  | none => ⟨[⟨"p1", "PHOTO"⟩, ⟨"p2", "PHOTO"⟩], some "A"⟩
  | some "A" => ⟨[⟨"p3", "PHOTO"⟩, ⟨"v1", "VIDEO"⟩], some "B"⟩
  | some "B" => ⟨[⟨"p4", "PHOTO"⟩], none⟩
  | some _ => ⟨[], none⟩

/-- The pages apiP221 serves. -/
def pagesP221 : List (Page PickerMediaItem) :=
  [⟨[⟨"p1", "PHOTO"⟩, ⟨"p2", "PHOTO"⟩], some "A"⟩,
   ⟨[⟨"p3", "PHOTO"⟩, ⟨"v1", "VIDEO"⟩], some "B"⟩,
   ⟨[⟨"p4", "PHOTO"⟩], none⟩]

/-- Concrete run of pagination_drain_all on the 2/2/1 upstream: exactly the
5 items come back in order, and the picker variant keeps its 4 photos. -/
theorem pagination_drain_all_witness :
    fetchYouTubePlaylists api221 pages221.length =
      some ((pages221.map Page.items).flatten) ∧
    fetchYouTubePlaylists api221 3 = some [1, 2, 3, 4, 5] ∧
    fetchPickedMediaItems apiP221 pagesP221.length =
      some (((pagesP221.map Page.items).flatten).filter (fun i => i.type == "PHOTO")) ∧
    fetchPickedMediaItems apiP221 3 =
      some [⟨"p1", "PHOTO"⟩, ⟨"p2", "PHOTO"⟩, ⟨"p3", "PHOTO"⟩, ⟨"p4", "PHOTO"⟩] :=
  ⟨(pagination_drain_all api221 apiP221 pages221 pagesP221
      (PageChain.cons rfl rfl (PageChain.cons rfl rfl (PageChain.last rfl rfl)))
      (PageChain.cons rfl rfl (PageChain.cons rfl rfl (PageChain.last rfl rfl)))).1,
   by decide,
   (pagination_drain_all api221 apiP221 pages221 pagesP221
      (PageChain.cons rfl rfl (PageChain.cons rfl rfl (PageChain.last rfl rfl)))
      (PageChain.cons rfl rfl (PageChain.cons rfl rfl (PageChain.last rfl rfl)))).2.2.2.2.2.2.2,
   by decide⟩

/-! ## Calendar fan-out (fetchAllCalendarEvents in src/lib/google.ts) -/

/-- An entry of the calendarList response. -/
structure CalendarMeta where
  id : String
  summary : String
  backgroundColor : Option String
  primary : Option Bool
  selected : Option Bool
deriving DecidableEq, Repr

/-- Start field of a calendar event: a timed event carries dateTime, an
all-day event carries date. -/
structure EventStart where
  dateTime : Option String
  date : Option String
deriving DecidableEq, Repr

/-- A calendar event, including the calendar fields the fan-out adds to each
event (they are empty defaults on an event as fetched). -/
structure CalendarEvent where
  start : EventStart
  summary : String
  calendarId : String
  calendarColor : Option String
  calendarName : String
  calendarPrimary : Bool
deriving DecidableEq, Repr

instance {ε α : Type} [DecidableEq ε] [DecidableEq α] : DecidableEq (Except ε α) :=
  fun a b =>
    match a, b with
    | Except.ok x, Except.ok y =>
      if h : x = y then Decidable.isTrue (by rw [h])
      else Decidable.isFalse (fun hh => h (Except.ok.inj hh))
    | Except.error x, Except.error y =>
      if h : x = y then Decidable.isTrue (by rw [h])
      else Decidable.isFalse (fun hh => h (Except.error.inj hh))
    | Except.ok _, Except.error _ => Decidable.isFalse (fun hh => Except.noConfusion hh)
    | Except.error _, Except.ok _ => Decidable.isFalse (fun hh => Except.noConfusion hh)

/-- Enrichment the fan-out applies to every event of a calendar: the
calendar's id, color, name and primary flag are spread onto the event. -/
def enrichEvent (cal : CalendarMeta) (e : CalendarEvent) : CalendarEvent :=
  { e with
    calendarId := cal.id,
    calendarColor := cal.backgroundColor,
    calendarName := cal.summary,
    calendarPrimary := cal.primary.getD false }

/-- The declared sort key: start.dateTime, else start.date, else the empty
string. -/
def eventSortKey (e : CalendarEvent) : String :=
  (e.start.dateTime.or e.start.date).getD ""

/-- Comparator of the final sort; localeCompare on the ISO-8601 keys the
Calendar API produces agrees with lexicographic string order. -/
def eventLe (a b : CalendarEvent) : Prop := eventSortKey a ≤ eventSortKey b

instance : DecidableRel eventLe := fun a b =>
  decidable_of_iff ((eventSortKey a).toList ≤ (eventSortKey b).toList)
    String.le_iff_toList_le.symm

instance : IsTotal CalendarEvent eventLe :=
  ⟨fun a b => le_total (eventSortKey a) (eventSortKey b)⟩

instance : IsTrans CalendarEvent eventLe :=
  ⟨fun _ _ _ hab hbc => le_trans hab hbc⟩

/-- The events one calendar contributes to the aggregate: its fetched events
enriched with the calendar's fields when its fetch settled fulfilled, and
nothing when it rejected. -/
def calendarEventsOf (fetchById : String → Except Unit (List CalendarEvent))
    (cal : CalendarMeta) : List CalendarEvent :=
  match fetchById cal.id with
  | Except.ok events => events.map (enrichEvent cal)
  | Except.error _ => []

/-- The merged (pre-sort) aggregate: events of every selected calendar whose
fetch succeeded, in calendar-list order. -/
def successEvents (cals : List CalendarMeta)
    (fetchById : String → Except Unit (List CalendarEvent)) : List CalendarEvent :=
  (cals.filter (fun cal => cal.selected == some true)).flatMap (calendarEventsOf fetchById)

/-- fetchAllCalendarEvents: fetch the calendar list, keep the calendars with
selected exactly true, fetch each one's events in parallel with an
all-settled join (a rejected fetch contributes nothing), tag each event with
its calendar, and sort the merged list by the declared key.  The insertion
sort models the JavaScript stable Array sort under the localeCompare
comparator.  Transport outcomes are passed in: listResult for the calendar
list and fetchById for each per-calendar fetch. -/
def fetchAllCalendarEvents (listResult : Except Unit (List CalendarMeta))
    (fetchById : String → Except Unit (List CalendarEvent)) :
    Except Unit (List CalendarEvent) := do
  let allCalendars ← listResult
  let calendars := allCalendars.filter (fun cal => cal.selected == some true)
  let results := calendars.map (fun cal =>
    (fetchById cal.id).map (fun events => events.map (enrichEvent cal)))
  let allEvents := results.flatMap (fun r =>
    match r with
    | Except.ok v => v
    | Except.error _ => [])
  return List.insertionSort eventLe allEvents

/-- With the calendar list available, the fan-out returns exactly the sorted
merge of the successful calendars' enriched events. -/
lemma fetchAllCalendarEvents_ok (cals : List CalendarMeta)
    (f : String → Except Unit (List CalendarEvent)) :
    fetchAllCalendarEvents (Except.ok cals) f =
      Except.ok (List.insertionSort eventLe (successEvents cals f)) := by
  have h1 : fetchAllCalendarEvents (Except.ok cals) f =
      Except.ok (List.insertionSort eventLe
        (((cals.filter (fun cal => cal.selected == some true)).map
          (fun cal => (f cal.id).map (fun events => events.map (enrichEvent cal)))).flatMap
          (fun r =>
            match r with
            | Except.ok v => v
            | Except.error _ => []))) := rfl
  rw [h1, List.flatMap_map]
  unfold successEvents
  congr 1
  refine congrArg _ (List.flatMap_congr fun cal _ => ?_)
  unfold calendarEventsOf
  cases hfc : f cal.id <;> simp [hfc, Except.map]

/-- C8: whatever subset of the per-calendar fetches rejects, the fan-out does
not throw — it returns an ok list that is a permutation of the merged
enriched events of exactly the successful selected calendars, sorted by the
declared key; and when every selected calendar's fetch rejects, the result is
the empty list. -/
theorem fetchAllCalendarEvents_partial_failure (cals : List CalendarMeta)
    (f : String → Except Unit (List CalendarEvent)) :
    (∃ l, fetchAllCalendarEvents (Except.ok cals) f = Except.ok l ∧
      l.Perm (successEvents cals f) ∧ l.Sorted eventLe) ∧
    ((∀ cal ∈ cals, cal.selected = some true → f cal.id = Except.error ()) →
      fetchAllCalendarEvents (Except.ok cals) f = Except.ok []) := by
  constructor
  · exact ⟨_, fetchAllCalendarEvents_ok cals f,
      List.perm_insertionSort _ _, List.sorted_insertionSort _ _⟩
  · intro h
    rw [fetchAllCalendarEvents_ok]
    have hnil : successEvents cals f = [] := by
      unfold successEvents
      rw [List.flatMap_eq_nil_iff]
      intro cal hcal
      have hmem := List.mem_filter.mp hcal
      have hsel : cal.selected = some true := by simpa using hmem.2
      unfold calendarEventsOf
      rw [h cal hmem.1 hsel]
    rw [hnil]
    rfl

/-- The calendars of the concrete fan-out runs: a, b, c selected, d not
selected. -/
def calA : CalendarMeta := ⟨"a", "Cal A", none, some true, some true⟩

/-- Second selected calendar of the concrete runs. -/
def calB : CalendarMeta := ⟨"b", "Cal B", none, none, some true⟩

/-- Third selected calendar of the concrete runs. -/
def calC : CalendarMeta := ⟨"c", "Cal C", none, none, some true⟩

/-- An unselected calendar (selected absent). -/
def calD : CalendarMeta := ⟨"d", "Cal D", none, none, none⟩

/-- A bare event starting at the given time, before enrichment. -/
def evAt (d : String) : CalendarEvent := ⟨⟨some d, none⟩, "", "", none, "", false⟩

/-- Concrete per-calendar outcomes: calendar b rejects, the others fulfill. -/
def fetchDemo : String → Except Unit (List CalendarEvent) := fun id =>
  if id == "b" then Except.error ()
  else if id == "a" then Except.ok [evAt "2025-02-01T10:00:00Z"]
  else if id == "c" then Except.ok [evAt "2025-01-01T10:00:00Z"]
  else Except.ok [evAt "2025-03-01T10:00:00Z"]

/-- Like fetchDemo but rejecting on the unselected calendar d. -/
def fetchDemoAlt : String → Except Unit (List CalendarEvent) := fun id =>
  if id == "d" then Except.error () else fetchDemo id

/-- The aggregate fetchDemo produces over calendars a, b, c, d: the two
fulfilled selected calendars' events, sorted by start time. -/
def demoMerged : List CalendarEvent :=
  [enrichEvent calC (evAt "2025-01-01T10:00:00Z"),
   enrichEvent calA (evAt "2025-02-01T10:00:00Z")]

/-- Concrete run of fetchAllCalendarEvents_partial_failure: with b of the
three selected calendars rejecting, the 2 successful calendars' events come
back sorted with no error; with every fetch rejecting, the result is the
empty list. -/
theorem fetchAllCalendarEvents_partial_failure_witness :
    fetchAllCalendarEvents (Except.ok [calA, calB, calC]) fetchDemo =
      Except.ok demoMerged ∧
    demoMerged.Sorted eventLe ∧
    fetchAllCalendarEvents (Except.ok [calA, calB, calC])
      (fun _ => Except.error ()) = Except.ok [] :=
  ⟨by decide, by decide,
   (fetchAllCalendarEvents_partial_failure [calA, calB, calC]
      (fun _ => Except.error ())).2 (fun _ _ _ => rfl)⟩

/-- C10: every event in the aggregate carries the id of a calendar whose
selected field is exactly true in the calendar list — events of calendars
with selected absent or false never appear; and the aggregate does not depend
on the fetch outcomes of non-selected calendars at all. -/
theorem fetchAllCalendarEvents_only_selected (cals : List CalendarMeta)
    (f g : String → Except Unit (List CalendarEvent)) (l : List CalendarEvent)
    (hl : fetchAllCalendarEvents (Except.ok cals) f = Except.ok l) :
    (∀ e ∈ l, ∃ cal, cal ∈ cals ∧ cal.selected = some true ∧ e.calendarId = cal.id) ∧
    ((∀ cal ∈ cals, cal.selected = some true → f cal.id = g cal.id) →
      fetchAllCalendarEvents (Except.ok cals) f =
        fetchAllCalendarEvents (Except.ok cals) g) := by
  constructor
  · intro e he
    have hleq : l = List.insertionSort eventLe (successEvents cals f) := by
      have hok := fetchAllCalendarEvents_ok cals f
      rw [hl] at hok
      exact Except.ok.inj hok
    rw [hleq] at he
    have hmem : e ∈ successEvents cals f :=
      ((List.perm_insertionSort eventLe _).mem_iff).mp he
    unfold successEvents at hmem
    obtain ⟨cal, hcal, hecal⟩ := List.mem_flatMap.mp hmem
    have hfm := List.mem_filter.mp hcal
    have hsel : cal.selected = some true := by simpa using hfm.2
    refine ⟨cal, hfm.1, hsel, ?_⟩
    unfold calendarEventsOf at hecal
    cases hfc : f cal.id with
    | error u =>
      rw [hfc] at hecal
      simp at hecal
    | ok evs =>
      rw [hfc] at hecal
      obtain ⟨a, _, ha⟩ := List.mem_map.mp hecal
      rw [← ha]
      rfl
  · intro hfg
    rw [fetchAllCalendarEvents_ok, fetchAllCalendarEvents_ok]
    congr 1
    unfold successEvents
    refine congrArg _ (List.flatMap_congr fun cal hcal => ?_)
    have hfm := List.mem_filter.mp hcal
    have hsel : cal.selected = some true := by simpa using hfm.2
    unfold calendarEventsOf
    rw [hfg cal hfm.1 hsel]

/-- Concrete run of fetchAllCalendarEvents_only_selected: changing the fetch
outcome of the unselected calendar d (success under fetchDemo, rejection
under fetchDemoAlt) leaves the aggregate unchanged, and d's events never
appear. -/
theorem fetchAllCalendarEvents_only_selected_witness :
    fetchAllCalendarEvents (Except.ok [calA, calB, calC, calD]) fetchDemo =
      fetchAllCalendarEvents (Except.ok [calA, calB, calC, calD]) fetchDemoAlt :=
  (fetchAllCalendarEvents_only_selected [calA, calB, calC, calD] fetchDemo
    fetchDemoAlt demoMerged (by decide)).2 (by decide)
